import Mathlib

/-!
Verification of the indoor AR pedestrian dead-reckoning core
(`src/index_indoor.js` and the near-duplicate variants in the repository).

The JavaScript classes are shallowly embedded: every JS number is modelled
as a real number, `Math.sqrt` as `Real.sqrt`, `Math.sin`/`Math.cos`/`Math.PI`
as their `Real` counterparts, and `Date.now()` as an explicit `now` input of
the update functions.  JS arrays with `push`/`shift` become Lean lists.
Step counters are natural numbers.
-/

open Real

/-- An acceleration sample `{x, y, z}` (`accelerationIncludingGravity`). -/
structure Accel where
  x : ℝ
  y : ℝ
  z : ℝ

/-- `Math.sqrt(a.x ** 2 + a.y ** 2 + a.z ** 2)`: acceleration vector magnitude. -/
noncomputable def mag (a : Accel) : ℝ :=
  Real.sqrt (a.x ^ 2 + a.y ^ 2 + a.z ^ 2)

/-- `arr.push(m); if (arr.length > cap) arr.shift();` on a JS array. -/
def pushCap (l : List ℝ) (m : ℝ) (cap : ℕ) : List ℝ :=
  let l' := l ++ [m]
  if cap < l'.length then l'.drop 1 else l'

/-- `Math.min(...l)` for a nonempty list (`0` for the empty list, unused). -/
def listMin : List ℝ → ℝ
  | [] => 0
  | x :: xs => xs.foldl min x

namespace Adaptive

/-- State of the advanced `StepDetector` class of `index_indoor.js`
(peak detection + EMA low-pass filter + adaptive threshold). -/
structure StepDetector where
  magnitudeHistory : List ℝ
  historySize : ℕ
  useFilter : Bool
  filterAlpha : ℝ
  filteredMagnitude : ℝ
  rawMagnitudeHistory : List ℝ
  baseThreshold : ℝ
  dynamicThreshold : ℝ
  avgMagnitude : ℝ
  magnitudeStdDev : ℝ
  lastPeakTime : ℝ
  minPeakInterval : ℝ
  lastMagnitude : ℝ
  lastDelta : ℝ
  stepCount : ℕ
  enabled : Bool
  totalSamples : ℕ
  falsePositiveFilter : Bool

/-- The `StepDetector` constructor. -/
def StepDetector.init : StepDetector where
  magnitudeHistory := []
  historySize := 10
  useFilter := true
  filterAlpha := 0.5
  filteredMagnitude := 9.8
  rawMagnitudeHistory := []
  baseThreshold := 10.5
  dynamicThreshold := 10.5
  avgMagnitude := 9.8
  magnitudeStdDev := 1.0
  lastPeakTime := 0
  minPeakInterval := 500
  lastMagnitude := 0
  lastDelta := 0
  stepCount := 0
  enabled := true
  totalSamples := 0
  falsePositiveFilter := false

/-- The `magnitude` used for detection: the EMA-filtered value when the
filter is on (`filtered = α·raw + (1−α)·filtered_prev`), the raw magnitude
otherwise. -/
noncomputable def effMagnitude (s : StepDetector) (a : Accel) : ℝ :=
  if s.useFilter then s.filterAlpha * mag a + (1 - s.filterAlpha) * s.filteredMagnitude
  else mag a

/-- The value of `this.filteredMagnitude` after one `update` call. -/
noncomputable def newFiltered (s : StepDetector) (a : Accel) : ℝ :=
  if s.useFilter then s.filterAlpha * mag a + (1 - s.filterAlpha) * s.filteredMagnitude
  else s.filteredMagnitude

/-- The value of `this.rawMagnitudeHistory` after one `update` call
(capacity 5, only maintained while the filter is on). -/
noncomputable def newRawHistory (s : StepDetector) (a : Accel) : List ℝ :=
  if s.useFilter then pushCap s.rawMagnitudeHistory (mag a) 5 else s.rawMagnitudeHistory

/-- The value of `this.magnitudeHistory` after one `update` call. -/
noncomputable def newHistory (s : StepDetector) (a : Accel) : List ℝ :=
  pushCap s.magnitudeHistory (effMagnitude s a) s.historySize

/-- The moving average: recomputed from the window every 10th sample
(`this.totalSamples % 10 === 0`, with `totalSamples` already incremented),
kept otherwise. -/
noncomputable def newAvg (s : StepDetector) (a : Accel) : ℝ :=
  if (s.totalSamples + 1) % 10 = 0 then
    (newHistory s a).sum / (newHistory s a).length
  else s.avgMagnitude

/-- The standard deviation: `sqrt(variance)` on recomputation samples. -/
noncomputable def newStd (s : StepDetector) (a : Accel) : ℝ :=
  if (s.totalSamples + 1) % 10 = 0 then
    Real.sqrt (((newHistory s a).map (fun v => (v - newAvg s a) ^ 2)).sum /
      (newHistory s a).length)
  else s.magnitudeStdDev

/-- The dynamic threshold: `max(baseThreshold, avg + 1·stddev)` on
recomputation samples, kept otherwise. -/
noncomputable def newDyn (s : StepDetector) (a : Accel) : ℝ :=
  if (s.totalSamples + 1) % 10 = 0 then
    max s.baseThreshold (newAvg s a + 1 * newStd s a)
  else s.dynamicThreshold

/-- A candidate peak: the detector is enabled, the updated window has at
least 5 samples, and the `isPeak` condition of `update` holds (threshold
crossing, derivative sign change, derivative-size gate). -/
noncomputable def candidate (s : StepDetector) (a : Accel) : Prop :=
  s.enabled = true ∧ ¬ (newHistory s a).length < 5 ∧
  effMagnitude s a > newDyn s a ∧ s.lastDelta > 0 ∧
  effMagnitude s a - s.lastMagnitude < 0 ∧ |s.lastDelta| > 0.25

/-- `StepDetector.update(acceleration, deltaTime)` of `index_indoor.js`.
The source reads the wall clock (`Date.now()`) for the debounce; that clock
value is the explicit `now` argument here.  `deltaTime` is accepted and,
as in the source, never used.  Returns the new state and the
detected-step flag. -/
noncomputable def StepDetector.update (s : StepDetector) (a : Accel) (deltaTime : ℝ)
    (now : ℝ) : StepDetector × Bool :=
  if s.enabled = false then (s, false) else
  let magnitude := effMagnitude s a
  let s1 : StepDetector :=
    { s with
      filteredMagnitude := newFiltered s a
      rawMagnitudeHistory := newRawHistory s a
      magnitudeHistory := newHistory s a
      totalSamples := s.totalSamples + 1 }
  if (newHistory s a).length < 5 then
    ({ s1 with lastMagnitude := magnitude }, false)
  else
    let s2 : StepDetector :=
      { s1 with
        avgMagnitude := newAvg s a
        magnitudeStdDev := newStd s a
        dynamicThreshold := newDyn s a }
    let delta := magnitude - s.lastMagnitude
    if (magnitude > newDyn s a ∧ s.lastDelta > 0 ∧ delta < 0 ∧ |s.lastDelta| > 0.25) ∧
        now - s.lastPeakTime > s.minPeakInterval then
      if s.falsePositiveFilter = true ∧
          magnitude - listMin (newHistory s a) < newStd s a * 1.5 then
        ({ s2 with lastMagnitude := magnitude, lastDelta := delta }, false)
      else
        ({ s2 with
            stepCount := s.stepCount + 1
            lastPeakTime := now
            lastMagnitude := magnitude
            lastDelta := delta }, true)
    else
      ({ s2 with lastMagnitude := magnitude, lastDelta := delta }, false)

/-- `StepDetector.reset()`. -/
def StepDetector.reset (s : StepDetector) : StepDetector :=
  { s with
    stepCount := 0
    magnitudeHistory := []
    rawMagnitudeHistory := []
    lastPeakTime := 0
    totalSamples := 0
    avgMagnitude := 9.8
    filteredMagnitude := 9.8
    dynamicThreshold := s.baseThreshold }

/-- `StepDetector.setFilter(enabled, alpha)`:
`filterAlpha = Math.max(0.1, Math.min(1.0, alpha))`. -/
noncomputable def StepDetector.setFilter (s : StepDetector) (enabled : Bool) (alpha : ℝ) :
    StepDetector :=
  { s with useFilter := enabled, filterAlpha := max 0.1 (min 1.0 alpha) }

/-- The own keys of the `multipliers` object literal in `setSensitivity`,
as a finite map; exact only for level strings that are not
`Object.prototype` property names.  The full JavaScript lookup, prototype
chain included, is modelled separately by `jsLookup`/`jsBaseThreshold`. -/
def sensitivityMultiplier (level : String) : Option ℝ :=
  if level = "low" then some 1.0
  else if level = "medium" then some 1.5
  else if level = "high" then some 2.0
  else none

/-- `StepDetector.setSensitivity(level)`:
`baseThreshold = 11 / (multipliers[level] || 1.5)`. -/
noncomputable def StepDetector.setSensitivity (s : StepDetector) (level : String) :
    StepDetector :=
  { s with baseThreshold := 11 / ((sensitivityMultiplier level).getD 1.5) }

end Adaptive

namespace Simple

/-- State of the simple fixed-threshold `StepDetector` variant
(second half of `index_indoor.js` and the unnamed source files). -/
structure StepDetector where
  lastMagnitude : ℝ
  threshold : ℝ
  cooldown : ℝ
  cooldownTime : ℝ
  stepCount : ℕ
  enabled : Bool

/-- Constructor of the simple detector. -/
def StepDetector.init : StepDetector where
  lastMagnitude := 0
  threshold := 11.25
  cooldown := 0
  cooldownTime := 300
  stepCount := 0
  enabled := true

/-- `update(acceleration, deltaTime)` of the simple detector: cooldown
decrement, then rising-edge threshold crossing with a 300 ms debounce. -/
noncomputable def StepDetector.update (s : StepDetector) (a : Accel) (deltaTime : ℝ) :
    StepDetector × Bool :=
  let cooldown := max 0 (s.cooldown - deltaTime)
  let magnitude := mag a
  if s.enabled = true ∧ magnitude > s.threshold ∧ s.lastMagnitude < s.threshold ∧
      cooldown = 0 then
    ({ s with
        stepCount := s.stepCount + 1
        cooldown := s.cooldownTime
        lastMagnitude := magnitude }, true)
  else
    ({ s with cooldown := cooldown, lastMagnitude := magnitude }, false)

end Simple

/-- A 3D position `{x, y, z}`. -/
structure Vec3 where
  x : ℝ
  y : ℝ
  z : ℝ

/-- The `IndoorPositionTracker` class (with the adaptive detector, as in
`index_indoor.js`). -/
structure IndoorPositionTracker where
  position : Vec3
  stepLength : ℝ
  stepDetector : Adaptive.StepDetector
  yaw : ℝ

/-- `new IndoorPositionTracker(stepLength)`. -/
def IndoorPositionTracker.init (stepLength : ℝ) : IndoorPositionTracker where
  position := ⟨0, 1.6, 0⟩
  stepLength := stepLength
  stepDetector := Adaptive.StepDetector.init
  yaw := 0

/-- A device-orientation sample; each angle may be `null`. -/
structure OrientationSample where
  alpha : Option ℝ
  beta : Option ℝ
  gamma : Option ℝ

/-- `THREE.MathUtils.degToRad`. -/
noncomputable def degToRad (d : ℝ) : ℝ := d * (Real.pi / 180)

/-- `IndoorPositionTracker.updateOrientation(orientationData, initialYaw)`:
when both the sample's alpha and the calibration reference are available,
`yaw = initialYaw − alpha·π/180`. -/
noncomputable def IndoorPositionTracker.updateOrientation (t : IndoorPositionTracker)
    (e : OrientationSample) (initialYaw : Option ℝ) : IndoorPositionTracker :=
  match e.alpha, initialYaw with
  | some a, some iy => { t with yaw := iy - a * Real.pi / 180 }
  | _, _ => t

/-- `IndoorPositionTracker.update(accelerationData, deltaTime)`: runs the
step detector and, on a detected step, advances the position by
`(sin(yaw)·stepLength, −cos(yaw)·stepLength)`. -/
noncomputable def IndoorPositionTracker.update (t : IndoorPositionTracker) (a : Accel)
    (deltaTime : ℝ) (now : ℝ) : IndoorPositionTracker × Bool :=
  let r := t.stepDetector.update a deltaTime now
  if r.2 then
    ({ t with
        stepDetector := r.1
        position :=
          ⟨t.position.x + Real.sin t.yaw * t.stepLength,
           t.position.y,
           t.position.z + (-Real.cos t.yaw) * t.stepLength⟩ }, true)
  else
    ({ t with stepDetector := r.1 }, false)

/-- `IndoorPositionTracker.reset()`. -/
def IndoorPositionTracker.reset (t : IndoorPositionTracker) : IndoorPositionTracker :=
  { t with position := ⟨0, 1.6, 0⟩, stepDetector := t.stepDetector.reset }

/-- State of the `DeviceOrientationController` (heading calibration part). -/
structure DeviceOrientationController where
  alpha : ℝ
  beta : ℝ
  gamma : ℝ
  initialYaw : Option ℝ

/-- The `DeviceOrientationController` constructor. -/
def DeviceOrientationController.init : DeviceOrientationController where
  alpha := 0
  beta := 0
  gamma := 0
  initialYaw := none

/-- The `handleOrientation` listener installed by
`DeviceOrientationController.connect`: captures `initialYaw` from the first
sample whose alpha is non-null, then stores the (degree→radian converted)
angles, with null angles treated as 0 and gamma pinned to 0. -/
noncomputable def handleOrientation (c : DeviceOrientationController)
    (e : OrientationSample) : DeviceOrientationController :=
  let iy :=
    match c.initialYaw, e.alpha with
    | none, some a => some (degToRad a)
    | _, _ => c.initialYaw
  { alpha := degToRad (e.alpha.getD 0)
    beta := degToRad (e.beta.getD 0)
    gamma := 0
    initialYaw := iy }

/-- A stream of orientation samples processed by `handleOrientation`. -/
noncomputable def runOrientation (c : DeviceOrientationController)
    (l : List OrientationSample) : DeviceOrientationController :=
  l.foldl handleOrientation c

/-- One `devicemotion` event: the acceleration, the inter-sample delta, and
the wall-clock time at which the detector processes it. -/
structure MotionInput where
  a : Accel
  dt : ℝ
  now : ℝ

/-- Feed a list of motion events to the adaptive detector, collecting the
step flags. -/
noncomputable def runD (s : Adaptive.StepDetector) :
    List MotionInput → Adaptive.StepDetector × List Bool
  | [] => (s, [])
  | i :: rest =>
    let r := s.update i.a i.dt i.now
    let rr := runD r.1 rest
    (rr.1, r.2 :: rr.2)

/-- Feed a list of motion events to the position tracker, collecting the
moved flags. -/
noncomputable def runT (t : IndoorPositionTracker) :
    List MotionInput → IndoorPositionTracker × List Bool
  | [] => (t, [])
  | i :: rest =>
    let r := t.update i.a i.dt i.now
    let rr := runT r.1 rest
    (rr.1, r.2 :: rr.2)

/-- No event of the list is a candidate peak at its point of the run. -/
noncomputable def NoCand : Adaptive.StepDetector → List MotionInput → Prop
  | _, [] => True
  | s, i :: rest =>
    ¬ Adaptive.candidate s i.a ∧ NoCand (s.update i.a i.dt i.now).1 rest

/-- The operations of the adaptive detector's public surface that the
invariant claims quantify over. -/
inductive DetOp where
  | upd (a : Accel) (dt : ℝ) (now : ℝ)
  | resetOp
  | setFilterOp (enabled : Bool) (alpha : ℝ)
  | setSensitivityOp (level : String)

/-- Apply one operation to an adaptive detector state. -/
noncomputable def applyOp (s : Adaptive.StepDetector) : DetOp → Adaptive.StepDetector
  | .upd a dt now => (s.update a dt now).1
  | .resetOp => s.reset
  | .setFilterOp e α => s.setFilter e α
  | .setSensitivityOp level => s.setSensitivity level

/-- Apply a sequence of operations starting from a state. -/
noncomputable def applyOps (s : Adaptive.StepDetector) (ops : List DetOp) :
    Adaptive.StepDetector :=
  ops.foldl applyOp s

/-- Whether an operation is a `setSensitivity` call. -/
def DetOp.isSensitivityOp : DetOp → Bool
  | .setSensitivityOp _ => true
  | _ => false

/-! ## Basic evaluation lemmas -/

/-- For a sample lying along the x axis with nonnegative coordinate, the
magnitude is that coordinate. -/
theorem mag_axis (x : ℝ) (hx : 0 ≤ x) : mag ⟨x, 0, 0⟩ = x := by
  simp only [mag]
  rw [show x ^ 2 + (0 : ℝ) ^ 2 + (0 : ℝ) ^ 2 = x ^ 2 by ring]
  exact Real.sqrt_sq hx

theorem mag_zero : mag ⟨0, 0, 0⟩ = 0 := mag_axis 0 le_rfl

theorem mag_one : mag ⟨1, 0, 0⟩ = 1 := mag_axis 1 (by norm_num)

theorem mag_two : mag ⟨2, 0, 0⟩ = 2 := mag_axis 2 (by norm_num)

theorem mag_eleven : mag ⟨11, 0, 0⟩ = 11 := mag_axis 11 (by norm_num)

theorem mag_twelve : mag ⟨12, 0, 0⟩ = 12 := mag_axis 12 (by norm_num)

/-- Pushing onto a capped list grows the length by one until the cap. -/
theorem pushCap_length (l : List ℝ) (m : ℝ) (cap : ℕ) :
    (pushCap l m cap).length = if cap < l.length + 1 then l.length else l.length + 1 := by
  simp only [pushCap, List.length_append, List.length_cons, List.length_nil]
  split <;> simp_all

/-! ## C7: warm-up grace period -/

/-- C7: while the sliding window holds fewer than 5 samples (so before this
call it holds fewer than 4), `update` returns the no-step result `false`
and leaves the step count unchanged; detection can only begin once at
least 5 samples have accumulated. -/
theorem claim_C7 (s : Adaptive.StepDetector) (a : Accel) (dt now : ℝ)
    (h : s.magnitudeHistory.length < 4) :
    (s.update a dt now).2 = false ∧ (s.update a dt now).1.stepCount = s.stepCount := by
  have hlen : (Adaptive.newHistory s a).length < 5 := by
    rw [Adaptive.newHistory, pushCap_length]
    split <;> omega
  by_cases he : s.enabled = false
  · simp [Adaptive.StepDetector.update, he]
  · simp [Adaptive.StepDetector.update, he, hlen]

/-- C7 witness: the freshly constructed detector (empty window) reports
no step on its first sample. -/
theorem claim_C7_witness :
    (Adaptive.StepDetector.init.update ⟨0, 0, 0⟩ 100 100).2 = false ∧
    (Adaptive.StepDetector.init.update ⟨0, 0, 0⟩ 100 100).1.stepCount =
      Adaptive.StepDetector.init.stepCount :=
  claim_C7 Adaptive.StepDetector.init ⟨0, 0, 0⟩ 100 100
    (by simp [Adaptive.StepDetector.init])

/-! ## C8: filter coefficient clamping -/

/-- C8: `setFilter` clamps the filter coefficient into `[0.1, 1.0]` rather
than rejecting it: values below `0.1` become `0.1`, values above `1.0`
become `1.0`, in-range values are stored unchanged, and the stored value
always lies in `[0.1, 1.0]`. -/
theorem claim_C8 (s : Adaptive.StepDetector) (e : Bool) (alpha : ℝ) :
    (alpha < 0.1 → (s.setFilter e alpha).filterAlpha = 0.1) ∧
    (1 < alpha → (s.setFilter e alpha).filterAlpha = 1) ∧
    (0.1 ≤ alpha → alpha ≤ 1 → (s.setFilter e alpha).filterAlpha = alpha) ∧
    0.1 ≤ (s.setFilter e alpha).filterAlpha ∧ (s.setFilter e alpha).filterAlpha ≤ 1 ∧
    (s.setFilter e alpha).useFilter = e := by
  simp only [Adaptive.StepDetector.setFilter]
  refine ⟨?_, ?_, ?_, ?_, ?_, trivial⟩
  · intro hlt
    rw [min_eq_right (by linarith), max_eq_left (by linarith)]
  · intro hgt
    rw [min_eq_left (by linarith), max_eq_right (by norm_num)]
    norm_num
  · intro h1 h2
    rw [min_eq_right (by linarith), max_eq_right h1]
  · exact le_max_left _ _
  · exact le_trans (max_le (by norm_num) (min_le_left _ _)) (by norm_num)

/-- C8 witness: `0.05` is clamped up to `0.1` and `1.7` down to `1`. -/
theorem claim_C8_witness :
    (Adaptive.StepDetector.init.setFilter true 0.05).filterAlpha = 0.1 ∧
    (Adaptive.StepDetector.init.setFilter true 1.7).filterAlpha = 1 :=
  ⟨(claim_C8 Adaptive.StepDetector.init true 0.05).1 (by norm_num),
   (claim_C8 Adaptive.StepDetector.init true 1.7).2.1 (by norm_num)⟩

/-! ## C9: the simple detector never fires on consecutive samples -/

/-- C9: after the simple fixed-threshold detector reports a step, the
stored `lastMagnitude` is above the threshold, so the rising-edge
condition fails on the very next sample: two consecutive updates never
both report a step. -/
theorem claim_C9 (s : Simple.StepDetector) (a a' : Accel) (dt dt' : ℝ)
    (h : (s.update a dt).2 = true) :
    (s.update a dt).1.lastMagnitude > (s.update a dt).1.threshold ∧
    ((s.update a dt).1.update a' dt').2 = false := by
  by_cases hc : s.enabled = true ∧ mag a > s.threshold ∧ s.lastMagnitude < s.threshold ∧
      max 0 (s.cooldown - dt) = 0
  · have hupd : s.update a dt =
        ({ s with
            stepCount := s.stepCount + 1
            cooldown := s.cooldownTime
            lastMagnitude := mag a }, true) := by
      simp [Simple.StepDetector.update, hc.1, hc.2.1, hc.2.2.1, hc.2.2.2]
    rw [hupd]
    refine ⟨hc.2.1, ?_⟩
    have hnot : ¬ ((true : Bool) = true ∧ mag a' > s.threshold ∧
        mag a < s.threshold ∧ max 0 (s.cooldownTime - dt') = 0) := by
      rintro ⟨-, -, hlt, -⟩
      exact absurd hlt (not_lt.mpr (le_of_lt hc.2.1))
    by_cases he : s.enabled = true
    · simp only [Simple.StepDetector.update, he]
      rw [if_neg (by simpa [he] using hnot)]
    · exact absurd hc.1 he
  · have : (s.update a dt).2 = false := by
      simp only [Simple.StepDetector.update]
      rw [if_neg hc]
    rw [this] at h
    exact absurd h (by simp)

/-- C9 witness: from the fresh simple detector, a sample of magnitude 12
fires a step, and an identical immediate follow-up sample does not. -/
theorem claim_C9_witness :
    (Simple.StepDetector.init.update ⟨12, 0, 0⟩ 0).1.lastMagnitude >
      (Simple.StepDetector.init.update ⟨12, 0, 0⟩ 0).1.threshold ∧
    ((Simple.StepDetector.init.update ⟨12, 0, 0⟩ 0).1.update ⟨12, 0, 0⟩ 0).2 = false :=
  claim_C9 Simple.StepDetector.init ⟨12, 0, 0⟩ ⟨12, 0, 0⟩ 0 0 (by
    have hc : Simple.StepDetector.init.enabled = true ∧
        mag ⟨12, 0, 0⟩ > Simple.StepDetector.init.threshold ∧
        Simple.StepDetector.init.lastMagnitude < Simple.StepDetector.init.threshold ∧
        max 0 (Simple.StepDetector.init.cooldown - 0) = 0 := by
      refine ⟨rfl, ?_, ?_, ?_⟩
      · rw [mag_twelve]
        norm_num [Simple.StepDetector.init]
      · norm_num [Simple.StepDetector.init]
      · norm_num [Simple.StepDetector.init]
    simp only [Simple.StepDetector.update]
    rw [if_pos hc])

/-! ## C10: sensitivity levels -/

/-- A JavaScript value relevant to the `multipliers[level]` property
lookup: a number, a truthy non-numeric value inherited from
`Object.prototype` (a function, or the prototype object itself), or
`undefined`. -/
inductive JSValue where
  | num (x : ℝ)
  | obj
  | undefined

/-- The property names of `Object.prototype`: looking any of these up on
the `multipliers` object literal walks the prototype chain and returns an
inherited function (or, for `__proto__`, an object) instead of
`undefined`. -/
def protoProps : List String :=
  ["constructor", "hasOwnProperty", "isPrototypeOf", "propertyIsEnumerable",
   "toLocaleString", "toString", "valueOf", "__proto__", "__defineGetter__",
   "__defineSetter__", "__lookupGetter__", "__lookupSetter__"]

/-- `multipliers[level]` with JavaScript property-lookup semantics: the
object literal's own keys first, then the `Object.prototype` chain, then
`undefined`. -/
def jsLookup (level : String) : JSValue :=
  if level = "low" then .num 1.0
  else if level = "medium" then .num 1.5
  else if level = "high" then .num 2.0
  else if level ∈ protoProps then .obj
  else .undefined

/-- JavaScript `v || fallback`: keeps a truthy left operand and substitutes
the fallback for `undefined`, the only falsy value this lookup can produce
(the own values 1.0, 1.5 and 2.0 are nonzero numbers, and inherited
properties are truthy). -/
def jsOr (v : JSValue) (fallback : ℝ) : JSValue :=
  match v with
  | .undefined => .num fallback
  | .num x => .num x
  | .obj => .obj

/-- JavaScript `x / v`: real division when `v` is a number (the multipliers
reaching this division are nonzero); `NaN` — modelled as `none` — when `v`
is a non-numeric value, which `ToNumber` coerces to `NaN`. -/
noncomputable def jsDiv (x : ℝ) (v : JSValue) : Option ℝ :=
  match v with
  | .num y => some (x / y)
  | .obj => none
  | .undefined => none

/-- `baseThreshold = 11 / (multipliers[level] || 1.5)` of `setSensitivity`,
with full JavaScript lookup semantics; `none` models `NaN`. -/
noncomputable def jsBaseThreshold (level : String) : Option ℝ :=
  jsDiv 11 (jsOr (jsLookup level) 1.5)

/-- C10 counterexample: `"toString"` lies outside `{low, medium, high}`,
yet `setSensitivity("toString")` does not fall back to the medium
multiplier: the lookup finds the inherited truthy
`Object.prototype.toString` function, and `11 /` that function is `NaN` —
neither `11/1.5` nor any of `11`, `11/1.5`, `5.5`. -/
theorem claim_C10_cex :
    ("toString" ≠ "low" ∧ "toString" ≠ "medium" ∧ "toString" ≠ "high") ∧
    jsBaseThreshold "toString" = none ∧
    jsBaseThreshold "toString" ≠ some (11 / 1.5) ∧
    jsBaseThreshold "toString" ≠ some 11 ∧
    jsBaseThreshold "toString" ≠ some 5.5 := by
  have hlk : jsLookup "toString" = JSValue.obj := by
    simp only [jsLookup]
    rw [if_neg (by decide), if_neg (by decide), if_neg (by decide), if_pos (by decide)]
  have hval : jsBaseThreshold "toString" = none := by
    simp [jsBaseThreshold, hlk, jsOr, jsDiv]
  exact ⟨⟨by decide, by decide, by decide⟩, hval, by simp [hval], by simp [hval],
    by simp [hval]⟩

/-- C10 (amended): a level string outside `{low, medium, high}` that is not
an `Object.prototype` property name falls back to the medium multiplier
1.5, setting base threshold `11/1.5`; the named levels give `11`, `11/1.5`
and `5.5`; but an `Object.prototype` property name makes the lookup return
an inherited truthy non-numeric value, so the base threshold becomes `NaN`.
Whenever the new base threshold is a number at all, it is `11` divided by
the selected multiplier: one of `11`, `11/1.5`, `5.5`. -/
theorem claim_C10_thm (s : Adaptive.StepDetector) (level : String) :
    (level ≠ "low" → level ≠ "medium" → level ≠ "high" → level ∉ protoProps →
      jsBaseThreshold level = some (11 / 1.5) ∧
      (s.setSensitivity level).baseThreshold = 11 / 1.5) ∧
    (jsBaseThreshold "low" = some 11 ∧ (s.setSensitivity "low").baseThreshold = 11) ∧
    (jsBaseThreshold "medium" = some (11 / 1.5) ∧
      (s.setSensitivity "medium").baseThreshold = 11 / 1.5) ∧
    (jsBaseThreshold "high" = some 5.5 ∧ (s.setSensitivity "high").baseThreshold = 5.5) ∧
    (level ∈ protoProps → jsBaseThreshold level = none) ∧
    (∀ x : ℝ, jsBaseThreshold level = some x → x = 11 ∨ x = 11 / 1.5 ∨ x = 5.5) := by
  refine ⟨?_, ⟨?_, ?_⟩, ⟨?_, ?_⟩, ⟨?_, ?_⟩, ?_, ?_⟩
  · intro h1 h2 h3 h4
    have hlk : jsLookup level = JSValue.undefined := by
      simp only [jsLookup]
      rw [if_neg h1, if_neg h2, if_neg h3, if_neg h4]
    constructor
    · simp [jsBaseThreshold, hlk, jsOr, jsDiv]
    · simp [Adaptive.StepDetector.setSensitivity, Adaptive.sensitivityMultiplier,
        h1, h2, h3]
  · have hlk : jsLookup "low" = JSValue.num 1.0 := by
      simp only [jsLookup]
      rw [if_pos trivial]
    norm_num [jsBaseThreshold, hlk, jsOr, jsDiv]
  · norm_num [Adaptive.StepDetector.setSensitivity, Adaptive.sensitivityMultiplier]
  · have hlk : jsLookup "medium" = JSValue.num 1.5 := by
      simp only [jsLookup]
      rw [if_neg (by decide), if_pos trivial]
    norm_num [jsBaseThreshold, hlk, jsOr, jsDiv]
  · norm_num [Adaptive.StepDetector.setSensitivity, Adaptive.sensitivityMultiplier,
      show ("medium" : String) ≠ "low" by decide]
  · have hlk : jsLookup "high" = JSValue.num 2.0 := by
      simp only [jsLookup]
      rw [if_neg (by decide), if_neg (by decide), if_pos trivial]
    norm_num [jsBaseThreshold, hlk, jsOr, jsDiv]
  · norm_num [Adaptive.StepDetector.setSensitivity, Adaptive.sensitivityMultiplier,
      show ("high" : String) ≠ "low" by decide, show ("high" : String) ≠ "medium" by decide]
  · intro hmem
    have h1 : level ≠ "low" := by
      intro h
      subst h
      revert hmem
      decide
    have h2 : level ≠ "medium" := by
      intro h
      subst h
      revert hmem
      decide
    have h3 : level ≠ "high" := by
      intro h
      subst h
      revert hmem
      decide
    have hlk : jsLookup level = JSValue.obj := by
      simp only [jsLookup]
      rw [if_neg h1, if_neg h2, if_neg h3, if_pos hmem]
    simp [jsBaseThreshold, hlk, jsOr, jsDiv]
  · intro x hx
    simp only [jsBaseThreshold, jsLookup] at hx
    split_ifs at hx with h1 h2 h3 h4
    · left
      simp only [jsOr, jsDiv, Option.some.injEq] at hx
      rw [← hx]
      norm_num
    · right; left
      simp only [jsOr, jsDiv, Option.some.injEq] at hx
      rw [← hx]
    · right; right
      simp only [jsOr, jsDiv, Option.some.injEq] at hx
      rw [← hx]
      norm_num
    · exact absurd hx (by simp [jsOr, jsDiv])
    · right; left
      simp only [jsOr, jsDiv, Option.some.injEq] at hx
      rw [← hx]

/-- C10 witness: the unknown level `"ultra"`, which is neither an own key
of the multipliers object nor an `Object.prototype` property name, falls
back to base threshold `11 / 1.5` in both the full-lookup model and the
detector. -/
theorem claim_C10_witness :
    jsBaseThreshold "ultra" = some (11 / 1.5) ∧
    (Adaptive.StepDetector.init.setSensitivity "ultra").baseThreshold = 11 / 1.5 :=
  (claim_C10_thm Adaptive.StepDetector.init "ultra").1
    (by decide) (by decide) (by decide) (by decide)

/-! ## C1: dead-reckoning integration -/

/-- C1: whenever `IndoorPositionTracker.update` accepts a step, the position
advances by `(sin(yaw)·stepLength, −cos(yaw)·stepLength)`; in particular,
with stepLength 0.65 from `(0,0)`, heading 0 leads to `(0, −0.65)` and
heading `π/2` leads to `(0.65, 0)`. -/
theorem claim_C1 (t : IndoorPositionTracker) (a : Accel) (dt now : ℝ)
    (h : (t.update a dt now).2 = true) :
    ((t.update a dt now).1.position.x = t.position.x + Real.sin t.yaw * t.stepLength ∧
     (t.update a dt now).1.position.z = t.position.z + (-Real.cos t.yaw) * t.stepLength) ∧
    (t.yaw = 0 → t.stepLength = 0.65 → t.position.x = 0 → t.position.z = 0 →
      (t.update a dt now).1.position.x = 0 ∧ (t.update a dt now).1.position.z = -0.65) ∧
    (t.yaw = Real.pi / 2 → t.stepLength = 0.65 → t.position.x = 0 → t.position.z = 0 →
      (t.update a dt now).1.position.x = 0.65 ∧ (t.update a dt now).1.position.z = 0) := by
  by_cases hd : (t.stepDetector.update a dt now).2 = true
  · have hupd : t.update a dt now =
        ({ t with
            stepDetector := (t.stepDetector.update a dt now).1
            position :=
              ⟨t.position.x + Real.sin t.yaw * t.stepLength,
               t.position.y,
               t.position.z + (-Real.cos t.yaw) * t.stepLength⟩ }, true) := by
      simp only [IndoorPositionTracker.update]
      rw [if_pos hd]
    rw [hupd]
    refine ⟨⟨rfl, rfl⟩, ?_, ?_⟩
    · intro hy hl hx hz
      rw [hy, hl, hx, hz]
      constructor <;> simp
    · intro hy hl hx hz
      rw [hy, hl, hx, hz]
      constructor <;> norm_num [Real.sin_pi_div_two, Real.cos_pi_div_two]
  · exfalso
    have : (t.update a dt now).2 = false := by
      simp only [IndoorPositionTracker.update]
      rw [if_neg hd]
    rw [this] at h
    exact absurd h (by simp)

/-- A detector state primed at the top of a peak: four windowed samples,
rising last derivative, filter off, so that the next sample of magnitude 11
is accepted as a step. -/
noncomputable def peakState : Adaptive.StepDetector :=
  { Adaptive.StepDetector.init with
      magnitudeHistory := [10, 10, 10, 10]
      totalSamples := 4
      useFilter := false
      lastMagnitude := 12
      lastDelta := 1 }

/-- A tracker at the origin with heading 0 carrying `peakState`. -/
noncomputable def peakTracker : IndoorPositionTracker :=
  { IndoorPositionTracker.init 0.65 with stepDetector := peakState }

/-- The primed state accepts the sample of magnitude 11 at time 1000. -/
theorem peakState_fires : (peakState.update ⟨11, 0, 0⟩ 100 1000).2 = true := by
  norm_num [Adaptive.StepDetector.update, Adaptive.effMagnitude, Adaptive.newHistory,
    Adaptive.newDyn, Adaptive.newAvg, Adaptive.newStd, Adaptive.newFiltered,
    Adaptive.newRawHistory, pushCap, peakState, Adaptive.StepDetector.init, mag_eleven]

/-- C1 witness: one accepted step with heading 0 from the origin moves the
tracker to `(0, −0.65)`. -/
theorem claim_C1_witness :
    (peakTracker.update ⟨11, 0, 0⟩ 100 1000).1.position.x = 0 ∧
    (peakTracker.update ⟨11, 0, 0⟩ 100 1000).1.position.z = -0.65 := by
  have hflag : (peakTracker.update ⟨11, 0, 0⟩ 100 1000).2 = true := by
    simp only [IndoorPositionTracker.update]
    rw [if_pos (by simpa [peakTracker, IndoorPositionTracker.init] using peakState_fires)]
  exact (claim_C1 peakTracker ⟨11, 0, 0⟩ 100 1000 hflag).2.1
    (by simp [peakTracker, IndoorPositionTracker.init])
    (by simp [peakTracker, IndoorPositionTracker.init])
    (by simp [peakTracker, IndoorPositionTracker.init])
    (by simp [peakTracker, IndoorPositionTracker.init])

/-! ## C5: heading calibration -/

/-- Once the calibration reference is captured, `handleOrientation` never
changes it. -/
theorem handleOrientation_keep (c : DeviceOrientationController)
    (e : OrientationSample) (r : ℝ) (h : c.initialYaw = some r) :
    (handleOrientation c e).initialYaw = some r := by
  simp only [handleOrientation, h]

/-- Once captured, the reference survives any further sample stream. -/
theorem runOrientation_keep (l : List OrientationSample)
    (c : DeviceOrientationController) (r : ℝ) (h : c.initialYaw = some r) :
    (runOrientation c l).initialYaw = some r := by
  induction l generalizing c with
  | nil => exact h
  | cons x xs ih => exact ih (handleOrientation c x) (handleOrientation_keep c x r h)

/-- The reference is captured from the first sample whose alpha is non-null:
null-alpha samples before it leave the reference unset, and samples after it
leave it unchanged. -/
theorem runOrientation_capture (pre : List OrientationSample)
    (c : DeviceOrientationController) (h : c.initialYaw = none)
    (hpre : ∀ e ∈ pre, e.alpha = none) (e : OrientationSample) (θ : ℝ)
    (he : e.alpha = some θ) (rest : List OrientationSample) :
    (runOrientation c (pre ++ e :: rest)).initialYaw = some (degToRad θ) := by
  induction pre generalizing c with
  | nil =>
    have hcap : (handleOrientation c e).initialYaw = some (degToRad θ) := by
      simp [handleOrientation, h, he]
    exact runOrientation_keep rest _ _ hcap
  | cons p ps ih =>
    have hp : (handleOrientation c p).initialYaw = none := by
      simp [handleOrientation, h, hpre p (by simp)]
    exact ih (handleOrientation c p) hp (fun x hx => hpre x (by simp [hx]))

/-- C5: the reference heading is captured exactly once, from the first
orientation sample with non-null alpha `θ₀` (converted to radians); a later
sample with alpha `a` yields `yaw = reference − a·π/180`, so alpha `θ₀`
yields heading 0 and alpha `θ₀ + 90°` yields heading `−π/2`. -/
theorem claim_C5 :
    (∀ (pre : List OrientationSample), (∀ e ∈ pre, e.alpha = none) →
      ∀ (e : OrientationSample) (θ : ℝ), e.alpha = some θ →
      ∀ rest, (runOrientation DeviceOrientationController.init
        (pre ++ e :: rest)).initialYaw = some (degToRad θ)) ∧
    (∀ (c : DeviceOrientationController) (e : OrientationSample) (r : ℝ),
      c.initialYaw = some r → (handleOrientation c e).initialYaw = some r) ∧
    (∀ (t : IndoorPositionTracker) (e : OrientationSample) (a r : ℝ),
      e.alpha = some a →
      (t.updateOrientation e (some r)).yaw = r - a * Real.pi / 180) ∧
    (∀ (t : IndoorPositionTracker) (e : OrientationSample) (θ : ℝ),
      e.alpha = some θ →
      (t.updateOrientation e (some (degToRad θ))).yaw = 0) ∧
    (∀ (t : IndoorPositionTracker) (e : OrientationSample) (θ : ℝ),
      e.alpha = some (θ + 90) →
      (t.updateOrientation e (some (degToRad θ))).yaw = -(Real.pi / 2)) := by
  have hgen : ∀ (t : IndoorPositionTracker) (e : OrientationSample) (a r : ℝ),
      e.alpha = some a →
      (t.updateOrientation e (some r)).yaw = r - a * Real.pi / 180 := by
    intro t e a r he
    simp [IndoorPositionTracker.updateOrientation, he]
  refine ⟨?_, ?_, hgen, ?_, ?_⟩
  · intro pre hpre e θ he rest
    exact runOrientation_capture pre _ rfl hpre e θ he rest
  · exact fun c e r h => handleOrientation_keep c e r h
  · intro t e θ he
    rw [hgen t e θ (degToRad θ) he, degToRad]
    ring
  · intro t e θ he
    rw [hgen t e (θ + 90) (degToRad θ) he, degToRad]
    ring

/-- C5 witness: with a null-alpha sample first, the reference is captured
from the second sample (alpha 30°) and survives a third sample; feeding
alpha 30° back with that reference yields heading 0. -/
theorem claim_C5_witness :
    (runOrientation DeviceOrientationController.init
      [⟨none, none, none⟩, ⟨some 30, some 10, none⟩,
       ⟨some 45, none, none⟩]).initialYaw = some (degToRad 30) ∧
    ((IndoorPositionTracker.init 0.65).updateOrientation ⟨some 30, none, none⟩
      (some (degToRad 30))).yaw = 0 := by
  constructor
  · exact claim_C5.1 [⟨none, none, none⟩]
      (by rintro e he; simp only [List.mem_singleton] at he; subst he; rfl)
      ⟨some 30, some 10, none⟩ 30 rfl [⟨some 45, none, none⟩]
  · exact claim_C5.2.2.2.1 (IndoorPositionTracker.init 0.65) ⟨some 30, none, none⟩ 30 rfl

/-! ## C6: the dynamic-threshold floor invariant -/

/-- One `update` call keeps the base threshold and keeps the dynamic
threshold at or above it. -/
theorem update_threshold_inv (s : Adaptive.StepDetector) (a : Accel) (dt now : ℝ)
    (h : s.baseThreshold ≤ s.dynamicThreshold) :
    (s.update a dt now).1.baseThreshold = s.baseThreshold ∧
    (s.update a dt now).1.baseThreshold ≤ (s.update a dt now).1.dynamicThreshold := by
  have hdyn : s.baseThreshold ≤ Adaptive.newDyn s a := by
    unfold Adaptive.newDyn
    split
    · exact le_max_left _ _
    · exact h
  simp only [Adaptive.StepDetector.update]
  split_ifs
  · exact ⟨rfl, h⟩
  · exact ⟨rfl, h⟩
  · exact ⟨rfl, hdyn⟩
  · exact ⟨rfl, hdyn⟩
  · exact ⟨rfl, hdyn⟩

/-- The floor invariant is preserved by any sequence of `update`, `reset`,
and `setFilter` operations. -/
theorem applyOps_threshold (ops : List DetOp) :
    ∀ s : Adaptive.StepDetector, s.baseThreshold ≤ s.dynamicThreshold →
    (∀ op ∈ ops, op.isSensitivityOp = false) →
    (applyOps s ops).baseThreshold ≤ (applyOps s ops).dynamicThreshold := by
  induction ops with
  | nil => exact fun s h _ => h
  | cons op ops ih =>
    intro s h hops
    have hop : (applyOp s op).baseThreshold ≤ (applyOp s op).dynamicThreshold := by
      cases op with
      | upd a dt now => exact (update_threshold_inv s a dt now h).2
      | resetOp => exact le_refl _
      | setFilterOp e α => exact h
      | setSensitivityOp level =>
        have hfalse := hops (DetOp.setSensitivityOp level) (List.mem_cons_self _ _)
        simp [DetOp.isSensitivityOp] at hfalse
    exact ih _ hop (fun o ho => hops o (List.mem_cons_of_mem _ ho))

/-- C6 (amended): after any interleaving of `update`, `reset`, and
`setFilter` calls from the freshly constructed detector, the dynamic
threshold is at least the configured base threshold.  (`setSensitivity` is
excluded: see the counterexample.) -/
theorem claim_C6_thm (ops : List DetOp)
    (h : ∀ op ∈ ops, op.isSensitivityOp = false) :
    (applyOps Adaptive.StepDetector.init ops).baseThreshold ≤
    (applyOps Adaptive.StepDetector.init ops).dynamicThreshold :=
  applyOps_threshold ops Adaptive.StepDetector.init (le_refl _) h

/-- C6 witness: the invariant holds after a `reset` followed by a
`setFilter` call. -/
theorem claim_C6_witness :
    (applyOps Adaptive.StepDetector.init
      [DetOp.resetOp, DetOp.setFilterOp true 0.3]).baseThreshold ≤
    (applyOps Adaptive.StepDetector.init
      [DetOp.resetOp, DetOp.setFilterOp true 0.3]).dynamicThreshold :=
  claim_C6_thm [DetOp.resetOp, DetOp.setFilterOp true 0.3]
    (by intro op hop
        simp only [List.mem_cons, List.not_mem_nil, or_false] at hop
        rcases hop with h | h <;> subst h <;> rfl)

/-- C6 counterexample: a single `setSensitivity("low")` call on the fresh
detector raises the base threshold to 11 while the dynamic threshold stays
at 10.5, violating the claimed invariant at a reachable state. -/
theorem claim_C6_cex :
    (applyOps Adaptive.StepDetector.init
      [DetOp.setSensitivityOp "low"]).dynamicThreshold <
    (applyOps Adaptive.StepDetector.init
      [DetOp.setSensitivityOp "low"]).baseThreshold := by
  norm_num [applyOps, applyOp, Adaptive.StepDetector.setSensitivity,
    Adaptive.sensitivityMultiplier, Adaptive.StepDetector.init, List.foldl]

/-! ## C3: sub-threshold sequences never step -/

/-- A convex combination of two values below a bound stays below it. -/
theorem convex_lt (a m f B : ℝ) (h0 : 0 ≤ a) (h1 : a ≤ 1) (hm : m < B) (hf : f < B) :
    a * m + (1 - a) * f < B := by
  rcases eq_or_lt_of_le h0 with h | h
  · rw [← h]
    linarith
  · have t1 : a * m < a * B := (mul_lt_mul_left h).mpr hm
    have t2 : (1 - a) * f ≤ (1 - a) * B := mul_le_mul_of_nonneg_left hf.le (by linarith)
    linarith [t1, t2]

/-- One update on a sub-threshold sample: no step, and the invariant
(filtered magnitude below base, dynamic threshold at least base, filter
coefficient in `[0,1]`) is preserved. -/
theorem c3_step (s : Adaptive.StepDetector) (a : Accel) (dt now : ℝ)
    (hα0 : 0 ≤ s.filterAlpha) (hα1 : s.filterAlpha ≤ 1)
    (hf : s.filteredMagnitude < s.baseThreshold)
    (hd : s.baseThreshold ≤ s.dynamicThreshold)
    (hm : mag a < s.baseThreshold) :
    (s.update a dt now).2 = false ∧
    (s.update a dt now).1.stepCount = s.stepCount ∧
    (s.update a dt now).1.baseThreshold = s.baseThreshold ∧
    0 ≤ (s.update a dt now).1.filterAlpha ∧ (s.update a dt now).1.filterAlpha ≤ 1 ∧
    (s.update a dt now).1.filteredMagnitude < (s.update a dt now).1.baseThreshold ∧
    (s.update a dt now).1.baseThreshold ≤ (s.update a dt now).1.dynamicThreshold := by
  have heff : Adaptive.effMagnitude s a < s.baseThreshold := by
    unfold Adaptive.effMagnitude
    split
    · exact convex_lt _ _ _ _ hα0 hα1 hm hf
    · exact hm
  have hnf : Adaptive.newFiltered s a < s.baseThreshold := by
    unfold Adaptive.newFiltered
    split
    · exact convex_lt _ _ _ _ hα0 hα1 hm hf
    · exact hf
  have hdyn : s.baseThreshold ≤ Adaptive.newDyn s a := by
    unfold Adaptive.newDyn
    split
    · exact le_max_left _ _
    · exact hd
  have hnp : ¬ (Adaptive.effMagnitude s a > Adaptive.newDyn s a) :=
    not_lt.mpr (le_of_lt (lt_of_lt_of_le heff hdyn))
  simp only [Adaptive.StepDetector.update]
  split_ifs with h1 h2 h3 h4
  · exact ⟨rfl, rfl, rfl, hα0, hα1, hf, hd⟩
  · exact ⟨rfl, rfl, rfl, hα0, hα1, hnf, hd⟩
  · exact absurd h3.1.1 hnp
  · exact absurd h3.1.1 hnp
  · exact ⟨rfl, rfl, rfl, hα0, hα1, hnf, hdyn⟩

/-- C3: for every input sequence in which every sample's acceleration
magnitude stays below the base threshold, starting from any state whose
filtered magnitude is below base, whose dynamic threshold is at least base,
and whose filter coefficient lies in `[0,1]` (all true of the fresh
detector), every update reports "no step" and the step count never
changes. -/
theorem claim_C3 (s : Adaptive.StepDetector) (l : List MotionInput)
    (hα0 : 0 ≤ s.filterAlpha) (hα1 : s.filterAlpha ≤ 1)
    (hf : s.filteredMagnitude < s.baseThreshold)
    (hd : s.baseThreshold ≤ s.dynamicThreshold)
    (hm : ∀ i ∈ l, mag i.a < s.baseThreshold) :
    (runD s l).2 = List.replicate l.length false ∧
    (runD s l).1.stepCount = s.stepCount := by
  induction l generalizing s with
  | nil => exact ⟨rfl, rfl⟩
  | cons i rest ih =>
    obtain ⟨hflag, hsc, hbase, hα0', hα1', hf', hd'⟩ :=
      c3_step s i.a i.dt i.now hα0 hα1 hf hd (hm i (List.mem_cons_self _ _))
    have hm' : ∀ j ∈ rest, mag j.a < (s.update i.a i.dt i.now).1.baseThreshold := by
      intro j hj
      rw [hbase]
      exact hm j (List.mem_cons_of_mem _ hj)
    obtain ⟨hflags, hsc'⟩ := ih (s.update i.a i.dt i.now).1 hα0' hα1' hf' hd' hm'
    constructor
    · simp only [runD, List.length_cons, List.replicate_succ]
      rw [hflag, hflags]
    · simp only [runD]
      rw [hsc', hsc]

/-- C3 witness: the fresh detector fed one sample of magnitude 1 reports no
step and keeps step count 0. -/
theorem claim_C3_witness :
    (runD Adaptive.StepDetector.init [⟨⟨1, 0, 0⟩, 100, 100⟩]).2 =
      List.replicate 1 false ∧
    (runD Adaptive.StepDetector.init [⟨⟨1, 0, 0⟩, 100, 100⟩]).1.stepCount =
      Adaptive.StepDetector.init.stepCount :=
  claim_C3 Adaptive.StepDetector.init [⟨⟨1, 0, 0⟩, 100, 100⟩]
    (by norm_num [Adaptive.StepDetector.init])
    (by norm_num [Adaptive.StepDetector.init])
    (by norm_num [Adaptive.StepDetector.init])
    (by norm_num [Adaptive.StepDetector.init])
    (by intro i hi
        simp only [List.mem_singleton] at hi
        subst hi
        rw [mag_one]
        norm_num [Adaptive.StepDetector.init])

/-! ## C2: reset versus a fresh tracker -/

/-- C2 (amended): `reset()` restores the position, the step count, both
history buffers, `lastPeakTime`, `totalSamples`, `avgMagnitude` and
`filteredMagnitude` to their freshly-constructed values and sets the
dynamic threshold to the current base threshold, but it carries over the
detector's `lastMagnitude`, `lastDelta` and `magnitudeStdDev` and the
tracker's `yaw` (besides the configuration fields) instead of restoring
them. -/
theorem claim_C2_thm (t : IndoorPositionTracker) :
    t.reset =
      { IndoorPositionTracker.init t.stepLength with
          yaw := t.yaw
          stepDetector :=
            { Adaptive.StepDetector.init with
                historySize := t.stepDetector.historySize
                useFilter := t.stepDetector.useFilter
                filterAlpha := t.stepDetector.filterAlpha
                baseThreshold := t.stepDetector.baseThreshold
                dynamicThreshold := t.stepDetector.baseThreshold
                minPeakInterval := t.stepDetector.minPeakInterval
                lastMagnitude := t.stepDetector.lastMagnitude
                lastDelta := t.stepDetector.lastDelta
                magnitudeStdDev := t.stepDetector.magnitudeStdDev
                enabled := t.stepDetector.enabled
                falsePositiveFilter := t.stepDetector.falsePositiveFilter } } := rfl

/-- The tracker as configured at system initialization, except with the
EMA filter disabled (`setFilter(false, 0.5)`), for an exact-arithmetic
counterexample run. -/
noncomputable def cfgTracker : IndoorPositionTracker :=
  { IndoorPositionTracker.init 0.65 with
      stepDetector := Adaptive.StepDetector.init.setFilter false 0.5 }

/-- A prior sequence of five quiet samples ending with a rising magnitude,
leaving the detector with `lastDelta = 1 > 0`. -/
noncomputable def priorSeq : List MotionInput :=
  [⟨⟨1, 0, 0⟩, 100, 100⟩, ⟨⟨1, 0, 0⟩, 100, 200⟩, ⟨⟨1, 0, 0⟩, 100, 300⟩,
   ⟨⟨1, 0, 0⟩, 100, 400⟩, ⟨⟨2, 0, 0⟩, 100, 500⟩]

/-- The replayed sequence: three quiet samples, then magnitudes 12 and 11. -/
noncomputable def replaySeq : List MotionInput :=
  [⟨⟨1, 0, 0⟩, 100, 600⟩, ⟨⟨1, 0, 0⟩, 100, 700⟩, ⟨⟨1, 0, 0⟩, 100, 800⟩,
   ⟨⟨12, 0, 0⟩, 100, 900⟩, ⟨⟨11, 0, 0⟩, 100, 1000⟩]

/-- C2 counterexample: running `priorSeq` through the configured tracker,
calling `reset()`, and replaying `replaySeq` yields a step at the fifth
replay sample (the stale `lastDelta = 1` survives the reset), while the
freshly constructed tracker with the same configuration fed the same
`replaySeq` detects no step — the outputs differ. -/
theorem claim_C2_cex :
    (runT ((runT cfgTracker priorSeq).1.reset) replaySeq).2 =
      [false, false, false, false, true] ∧
    (runT cfgTracker replaySeq).2 = [false, false, false, false, false] ∧
    (runT ((runT cfgTracker priorSeq).1.reset) replaySeq).2 ≠
      (runT cfgTracker replaySeq).2 := by
  have h1 : (runT ((runT cfgTracker priorSeq).1.reset) replaySeq).2 =
      [false, false, false, false, true] := by
    norm_num [runT, IndoorPositionTracker.update, IndoorPositionTracker.reset,
      Adaptive.StepDetector.update, Adaptive.StepDetector.reset,
      Adaptive.StepDetector.setFilter, Adaptive.effMagnitude, Adaptive.newFiltered,
      Adaptive.newRawHistory, Adaptive.newHistory, Adaptive.newAvg, Adaptive.newStd,
      Adaptive.newDyn, pushCap, listMin, cfgTracker, priorSeq, replaySeq,
      IndoorPositionTracker.init, Adaptive.StepDetector.init,
      mag_one, mag_two, mag_eleven, mag_twelve]
  have h2 : (runT cfgTracker replaySeq).2 = [false, false, false, false, false] := by
    norm_num [runT, IndoorPositionTracker.update,
      Adaptive.StepDetector.update, Adaptive.StepDetector.setFilter,
      Adaptive.effMagnitude, Adaptive.newFiltered,
      Adaptive.newRawHistory, Adaptive.newHistory, Adaptive.newAvg, Adaptive.newStd,
      Adaptive.newDyn, pushCap, listMin, cfgTracker, replaySeq,
      IndoorPositionTracker.init, Adaptive.StepDetector.init,
      mag_one, mag_eleven, mag_twelve]
  refine ⟨h1, h2, ?_⟩
  rw [h1, h2]
  simp

/-! ## C4: minimum-interval debounce -/

/-- `update` never changes the enabled flag, the false-positive-filter flag,
or the minimum peak interval. -/
theorem update_config (s : Adaptive.StepDetector) (a : Accel) (dt now : ℝ) :
    (s.update a dt now).1.enabled = s.enabled ∧
    (s.update a dt now).1.falsePositiveFilter = s.falsePositiveFilter ∧
    (s.update a dt now).1.minPeakInterval = s.minPeakInterval := by
  simp only [Adaptive.StepDetector.update]
  split_ifs <;> exact ⟨rfl, rfl, rfl⟩

/-- A non-candidate sample yields no step and leaves the step count and the
last peak time unchanged. -/
theorem update_not_cand (s : Adaptive.StepDetector) (a : Accel) (dt now : ℝ)
    (h : ¬ Adaptive.candidate s a) :
    (s.update a dt now).2 = false ∧
    (s.update a dt now).1.stepCount = s.stepCount ∧
    (s.update a dt now).1.lastPeakTime = s.lastPeakTime := by
  simp only [Adaptive.StepDetector.update]
  split_ifs with h1 h2 h3 h4
  · exact ⟨rfl, rfl, rfl⟩
  · exact ⟨rfl, rfl, rfl⟩
  · exact ⟨rfl, rfl, rfl⟩
  · exact absurd ⟨by revert h1; cases s.enabled <;> simp, h2,
      h3.1.1, h3.1.2.1, h3.1.2.2.1, h3.1.2.2.2⟩ h
  · exact ⟨rfl, rfl, rfl⟩

/-- A candidate sample arriving more than `minPeakInterval` after the last
accepted peak, with the false-positive filter off, is accepted: the step
count increments and the last peak time becomes the current time. -/
theorem update_accept (s : Adaptive.StepDetector) (a : Accel) (dt now : ℝ)
    (hc : Adaptive.candidate s a)
    (ht : now - s.lastPeakTime > s.minPeakInterval)
    (hf : s.falsePositiveFilter = false) :
    (s.update a dt now).2 = true ∧
    (s.update a dt now).1.stepCount = s.stepCount + 1 ∧
    (s.update a dt now).1.lastPeakTime = now := by
  obtain ⟨he, hlen, h3, h4, h5, h6⟩ := hc
  simp only [Adaptive.StepDetector.update]
  rw [if_neg (by simp [he]), if_neg hlen, if_pos ⟨⟨h3, h4, h5, h6⟩, ht⟩,
    if_neg (by simp [hf])]
  exact ⟨rfl, rfl, rfl⟩

/-- A candidate sample arriving at most `minPeakInterval` after the last
accepted peak is rejected: no step, step count and last peak time
unchanged. -/
theorem update_reject (s : Adaptive.StepDetector) (a : Accel) (dt now : ℝ)
    (hc : Adaptive.candidate s a)
    (ht : ¬ now - s.lastPeakTime > s.minPeakInterval) :
    (s.update a dt now).2 = false ∧
    (s.update a dt now).1.stepCount = s.stepCount ∧
    (s.update a dt now).1.lastPeakTime = s.lastPeakTime := by
  obtain ⟨he, hlen, _, _, _, _⟩ := hc
  simp only [Adaptive.StepDetector.update]
  rw [if_neg (by simp [he]), if_neg hlen, if_neg (fun hcc => ht hcc.2)]
  exact ⟨rfl, rfl, rfl⟩

/-- Running a run splits along list concatenation. -/
theorem runD_append (l₁ : List MotionInput) :
    ∀ (s : Adaptive.StepDetector) (l₂ : List MotionInput),
    runD s (l₁ ++ l₂) =
      ((runD (runD s l₁).1 l₂).1, (runD s l₁).2 ++ (runD (runD s l₁).1 l₂).2) := by
  induction l₁ with
  | nil => intro s l₂; simp [runD]
  | cons i l ih =>
    intro s l₂
    simp only [List.cons_append, runD, List.append_eq]
    rw [ih]

/-- A candidate-free run yields only `false` flags and preserves the step
count, the last peak time, and the configuration flags. -/
theorem runD_noCand (l : List MotionInput) :
    ∀ s : Adaptive.StepDetector, NoCand s l →
    (runD s l).1.stepCount = s.stepCount ∧
    (runD s l).1.lastPeakTime = s.lastPeakTime ∧
    (runD s l).1.enabled = s.enabled ∧
    (runD s l).1.falsePositiveFilter = s.falsePositiveFilter ∧
    (runD s l).1.minPeakInterval = s.minPeakInterval ∧
    (runD s l).2 = List.replicate l.length false := by
  induction l with
  | nil => exact fun s _ => ⟨rfl, rfl, rfl, rfl, rfl, rfl⟩
  | cons i rest ih =>
    intro s h
    obtain ⟨hnc, hrest⟩ := h
    obtain ⟨hflag, hsc, hlp⟩ := update_not_cand s i.a i.dt i.now hnc
    obtain ⟨hen, hfpf, hmpi⟩ := update_config s i.a i.dt i.now
    obtain ⟨ih1, ih2, ih3, ih4, ih5, ih6⟩ := ih (s.update i.a i.dt i.now).1 hrest
    refine ⟨?_, ?_, ?_, ?_, ?_, ?_⟩ <;> simp only [runD]
    · rw [ih1, hsc]
    · rw [ih2, hlp]
    · rw [ih3, hen]
    · rw [ih4, hfpf]
    · rw [ih5, hmpi]
    · rw [hflag, ih6, List.length_cons, List.replicate_succ]

/-- C4: for an input run containing exactly two candidate peaks — one event
`i` after a candidate-free prefix `A`, one event `j` after a candidate-free
middle segment `B`, followed by a candidate-free suffix `C` — where `i`
clears the debounce window and `j` arrives strictly less than
`minPeakInterval` after `i`, exactly one step is detected: `i` is accepted
and `j` is rejected by the minimum-interval debounce. -/
theorem claim_C4 (s : Adaptive.StepDetector) (A B C : List MotionInput)
    (i j : MotionInput)
    (hfpf : s.falsePositiveFilter = false)
    (hA : NoCand s A)
    (hci : Adaptive.candidate (runD s A).1 i.a)
    (hti : i.now - s.lastPeakTime > s.minPeakInterval)
    (hB : NoCand ((runD s A).1.update i.a i.dt i.now).1 B)
    (hcj : Adaptive.candidate (runD ((runD s A).1.update i.a i.dt i.now).1 B).1 j.a)
    (htj : j.now - i.now < s.minPeakInterval)
    (hC : NoCand ((runD ((runD s A).1.update i.a i.dt i.now).1 B).1.update
      j.a j.dt j.now).1 C) :
    (runD s (A ++ i :: (B ++ j :: C))).1.stepCount = s.stepCount + 1 ∧
    (runD s (A ++ i :: (B ++ j :: C))).2 =
      List.replicate A.length false ++
        true :: (List.replicate B.length false ++
          false :: List.replicate C.length false) := by
  obtain ⟨hA1, hA2, -, hA4, hA5, hA6⟩ := runD_noCand A s hA
  obtain ⟨hi_flag, hi_sc, hi_lp⟩ :=
    update_accept (runD s A).1 i.a i.dt i.now hci
      (by rw [hA2, hA5]; exact hti) (by rw [hA4]; exact hfpf)
  obtain ⟨-, hi_fpf, hi_mpi⟩ := update_config (runD s A).1 i.a i.dt i.now
  obtain ⟨hB1, hB2, -, hB4, hB5, hB6⟩ :=
    runD_noCand B ((runD s A).1.update i.a i.dt i.now).1 hB
  obtain ⟨hj_flag, hj_sc, hj_lp⟩ :=
    update_reject (runD ((runD s A).1.update i.a i.dt i.now).1 B).1 j.a j.dt j.now hcj
      (by rw [hB2, hi_lp, hB5, hi_mpi, hA5]; exact not_lt.mpr (le_of_lt htj))
  obtain ⟨hC1, hC2, -, -, -, hC6⟩ :=
    runD_noCand C ((runD ((runD s A).1.update i.a i.dt i.now).1 B).1.update
      j.a j.dt j.now).1 hC
  simp only [runD_append, runD]
  constructor
  · rw [hC1, hj_sc, hB1, hi_sc, hA1]
  · rw [hA6, hi_flag, hB6, hj_flag, hC6]

/-- C4 witness: from the primed state, the sample of magnitude 11 at time
1000 is an accepted candidate, the sample of magnitude 12 at 1100 is not a
candidate, and the second candidate (magnitude 11 at 1200, 200 ms after the
first accepted peak) is rejected: exactly one step in total. -/
theorem claim_C4_witness :
    (runD peakState
      [⟨⟨11, 0, 0⟩, 100, 1000⟩, ⟨⟨12, 0, 0⟩, 100, 1100⟩,
       ⟨⟨11, 0, 0⟩, 100, 1200⟩]).1.stepCount = 1 ∧
    (runD peakState
      [⟨⟨11, 0, 0⟩, 100, 1000⟩, ⟨⟨12, 0, 0⟩, 100, 1100⟩,
       ⟨⟨11, 0, 0⟩, 100, 1200⟩]).2 = [true, false, false] := by
  have hfpf : peakState.falsePositiveFilter = false := by
    norm_num [peakState, Adaptive.StepDetector.init]
  have hA : NoCand peakState [] := trivial
  have hci : Adaptive.candidate (runD peakState []).1 ⟨11, 0, 0⟩ := by
    norm_num [runD, Adaptive.candidate, Adaptive.effMagnitude, Adaptive.newHistory,
      Adaptive.newDyn, Adaptive.newAvg, Adaptive.newStd, pushCap,
      peakState, Adaptive.StepDetector.init, mag_eleven]
  have hti : (1000 : ℝ) - peakState.lastPeakTime > peakState.minPeakInterval := by
    norm_num [peakState, Adaptive.StepDetector.init]
  have hB : NoCand ((runD peakState []).1.update ⟨11, 0, 0⟩ 100 1000).1
      [⟨⟨12, 0, 0⟩, 100, 1100⟩] := by
    refine ⟨?_, trivial⟩
    norm_num [runD, Adaptive.candidate, Adaptive.StepDetector.update,
      Adaptive.effMagnitude, Adaptive.newFiltered, Adaptive.newRawHistory,
      Adaptive.newHistory, Adaptive.newDyn, Adaptive.newAvg, Adaptive.newStd,
      pushCap, listMin, peakState, Adaptive.StepDetector.init,
      mag_eleven, mag_twelve]
  have hcj : Adaptive.candidate
      (runD ((runD peakState []).1.update ⟨11, 0, 0⟩ 100 1000).1
        [⟨⟨12, 0, 0⟩, 100, 1100⟩]).1 ⟨11, 0, 0⟩ := by
    norm_num [runD, Adaptive.candidate, Adaptive.StepDetector.update,
      Adaptive.effMagnitude, Adaptive.newFiltered, Adaptive.newRawHistory,
      Adaptive.newHistory, Adaptive.newDyn, Adaptive.newAvg, Adaptive.newStd,
      pushCap, listMin, peakState, Adaptive.StepDetector.init,
      mag_eleven, mag_twelve]
  have htj : (1200 : ℝ) - 1000 < peakState.minPeakInterval := by
    norm_num [peakState, Adaptive.StepDetector.init]
  have hC : NoCand ((runD ((runD peakState []).1.update ⟨11, 0, 0⟩ 100 1000).1
      [⟨⟨12, 0, 0⟩, 100, 1100⟩]).1.update ⟨11, 0, 0⟩ 100 1200).1 [] := trivial
  exact claim_C4 peakState [] [⟨⟨12, 0, 0⟩, 100, 1100⟩] []
    ⟨⟨11, 0, 0⟩, 100, 1000⟩ ⟨⟨11, 0, 0⟩, 100, 1200⟩
    hfpf hA hci hti hB hcj htj hC
